import Mathlib

/-!
Shallow embedding of `src/radius/radius_das.c` (RADIUS Dynamic Authorization
Server, RFC 5176) and proofs about its receive/validate/dispatch cycle and
its init/deinit lifecycle.

The RADIUS wire-format codec (`radius.c` / `radius.h`) and the event loop are
external collaborators of this file; their fallible outcomes are modelled by
an explicit environment record, and the message constructors the spec
describes are modelled from the spec (marked in their doc comments).
-/

namespace RadiusDas

/-- Modelled from the spec: RADIUS wire constants from `radius.h`, which is not
under `src/`.  Request codes 40 (Disconnect-Request) and 43 (CoA-Request);
response NAK codes 41 and 45; attribute types 101 (Error-Cause) and
80 (Message-Authenticator). -/
def RADIUS_CODE_DISCONNECT_REQUEST : Nat := 40

/-- Modelled from the spec: the Disconnect-NAK response code. -/
def RADIUS_CODE_DISCONNECT_NAK : Nat := 41

/-- Modelled from the spec: the CoA-Request code. -/
def RADIUS_CODE_COA_REQUEST : Nat := 43

/-- Modelled from the spec: the CoA-NAK response code. -/
def RADIUS_CODE_COA_NAK : Nat := 45

/-- Modelled from the spec: the Error-Cause attribute type. -/
def RADIUS_ATTR_ERROR_CAUSE : Nat := 101

/-- Modelled from the spec: the Message-Authenticator attribute type. -/
def RADIUS_ATTR_MESSAGE_AUTHENTICATOR : Nat := 80

/-- One typed RADIUS attribute (spec section 3: an ordered sequence of typed
attributes); integer attributes carry their value directly. -/
structure RadiusAttr where
  attrType : Nat
  value : Nat
deriving DecidableEq, Repr

/-- Structured view of a decoded or to-be-encoded RADIUS message
(`struct radius_msg` is owned by the external codec; spec section 3 gives it a
code, an identifier and an ordered attribute sequence). -/
structure RadiusMsg where
  code : Nat
  identifier : Nat
  attrs : List RadiusAttr
deriving DecidableEq, Repr

/-- One received UDP datagram: source IPv4 address (`from.sin.sin_addr.s_addr`),
source port (`from.sin.sin_port`), and the raw bytes read by `recvfrom`. -/
structure Datagram where
  srcAddr : Nat
  srcPort : Nat
  data : List Nat
deriving DecidableEq, Repr

/-- The endpoint state `struct radius_das_data`: socket descriptor, shared
secret buffer, and the configured trusted client IPv4 address (only the
`u.v4.s_addr` field is ever read by the receive handler). -/
structure RadiusDasData where
  sock : Int
  shared_secret : List Nat
  client_addr : Nat
deriving DecidableEq, Repr

/-- Outcomes of the external codec calls made by the receive handler.  `parse`
and authenticator verification are arbitrary functions of their inputs;
allocation failures of the reply constructors are explicit flags; the
Message-Authenticator the signer would compute is an arbitrary function. -/
structure Env where
  radius_msg_parse : List Nat → Option RadiusMsg
  radius_msg_verify_das_req : RadiusMsg → List Nat → Int
  newFails : Bool
  addAttrFails : Bool
  finishFails : Bool
  computeMac : RadiusMsg → List Nat → RadiusMsg → Nat

/-- Modelled from the spec: `newResponse(code, identifier) -> RadiusResponse |
AllocError` (`radius_msg_new` in `radius.c`, not under `src/`): on success a
fresh message with the given code and identifier and no attributes. -/
def radius_msg_new (env : Env) (code identifier : Nat) : Option RadiusMsg :=
  if env.newFails then none
  else some { code := code, identifier := identifier, attrs := [] }

/-- Modelled from the spec: `addIntegerAttribute` (`radius_msg_add_attr_int32`
in `radius.c`, not under `src/`): on success appends the typed integer
attribute; on allocation failure leaves the message unchanged.  The Bool is
the success flag the C caller receives (and, in `radius_das_receive`,
ignores). -/
def radius_msg_add_attr_int32 (env : Env) (msg : RadiusMsg) (t v : Nat) :
    RadiusMsg × Bool :=
  if env.addAttrFails then (msg, false)
  else ({ msg with attrs := msg.attrs ++ [⟨t, v⟩] }, true)

/-- Modelled from the spec: `finishAndSign(RadiusResponse, secret,
originalRequestAuthenticator) -> ok | SignError` (`radius_msg_finish_das_resp`
in `radius.c`, not under `src/`): on success appends the Message-Authenticator
attribute computed over the reply, the secret and the original request; on
failure the reply is left as constructed (`none`). -/
def radius_msg_finish_das_resp (env : Env) (reply : RadiusMsg)
    (secret : List Nat) (req : RadiusMsg) : Option RadiusMsg :=
  if env.finishFails then none
  else some { reply with attrs := reply.attrs ++
      [⟨RADIUS_ATTR_MESSAGE_AUTHENTICATOR, env.computeMac reply secret req⟩] }

/-- Observable events of one receive cycle, in program order: one event per
external interaction of `radius_das_receive` (drops, codec calls, the
`sendto` call, and the final `radius_msg_free` cleanup). -/
inductive DasEvent where
  | recvError : DasEvent
  | dropUnknownClient : DasEvent
  | parseCalled : DasEvent
  | parseFailed : DasEvent
  | verifyCalled : DasEvent
  | authFailed : DasEvent
  | newCalled (code identifier : Nat) : DasEvent
  | unexpectedCode (code : Nat) : DasEvent
  | sentTo (addr port : Nat) (msg : RadiusMsg) : DasEvent
  | cleanup : DasEvent
deriving DecidableEq, Repr

/-- The datagrams actually written by a cycle: destination address, destination
port and the message whose encoding was passed to `sendto`. -/
def dasSends (tr : List DasEvent) : List (Nat × Nat × RadiusMsg) :=
  tr.filterMap fun e =>
    match e with
    | DasEvent.sentTo a p m => some (a, p, m)
    | _ => none

/-- The switch on `hdr->code` in `radius_das_receive` (lines 86-110): builds
the NAK reply for the two recognized request codes, ignoring the result of
adding the Error-Cause attribute, and builds nothing otherwise.  Returns the
reply (if any) and the dispatch events. -/
def radius_das_dispatch (env : Env) (msg : RadiusMsg) :
    Option RadiusMsg × List DasEvent :=
  if msg.code = RADIUS_CODE_DISCONNECT_REQUEST then
    match radius_msg_new env RADIUS_CODE_DISCONNECT_NAK msg.identifier with
    | none => (none, [DasEvent.newCalled RADIUS_CODE_DISCONNECT_NAK msg.identifier])
    | some r =>
        (some (radius_msg_add_attr_int32 env r RADIUS_ATTR_ERROR_CAUSE 405).1,
         [DasEvent.newCalled RADIUS_CODE_DISCONNECT_NAK msg.identifier])
  else if msg.code = RADIUS_CODE_COA_REQUEST then
    match radius_msg_new env RADIUS_CODE_COA_NAK msg.identifier with
    | none => (none, [DasEvent.newCalled RADIUS_CODE_COA_NAK msg.identifier])
    | some r =>
        (some (radius_msg_add_attr_int32 env r RADIUS_ATTR_ERROR_CAUSE 405).1,
         [DasEvent.newCalled RADIUS_CODE_COA_NAK msg.identifier])
  else (none, [DasEvent.unexpectedCode msg.code])

/-- The receive handler `radius_das_receive` (lines 30-140).  Input is the
endpoint state, the codec environment and the `recvfrom` outcome (`none` is a
receive error, `len < 0`).  Output is the (unchanged) endpoint state and the
trace of one cycle: origin check on the source address only, parse,
authenticator verification, dispatch by code, best-effort signing, `sendto`
back to the exact received source address and port, unconditional cleanup. -/
def radius_das_receive (das : RadiusDasData) (env : Env)
    (recvResult : Option Datagram) : RadiusDasData × List DasEvent :=
  match recvResult with
  | none => (das, [DasEvent.recvError])
  | some pkt =>
    if das.client_addr ≠ pkt.srcAddr then
      (das, [DasEvent.dropUnknownClient])
    else
      match env.radius_msg_parse pkt.data with
      | none => (das, [DasEvent.parseCalled, DasEvent.parseFailed])
      | some msg =>
        if env.radius_msg_verify_das_req msg das.shared_secret ≠ 0 then
          (das, [DasEvent.parseCalled, DasEvent.verifyCalled,
                 DasEvent.authFailed, DasEvent.cleanup])
        else
          let dispatched := radius_das_dispatch env msg
          let sendEvents : List DasEvent :=
            match dispatched.1 with
            | none => []
            | some r =>
                let r2 := (radius_msg_finish_das_resp env r das.shared_secret
                             msg).getD r
                [DasEvent.sentTo pkt.srcAddr pkt.srcPort r2]
          (das, DasEvent.parseCalled :: DasEvent.verifyCalled ::
                (dispatched.2 ++ sendEvents ++ [DasEvent.cleanup]))

/-- The configuration record `struct radius_das_conf`: port, shared secret
pointer (`none` is NULL; the C code never inspects the length) and client
address pointer. -/
structure radius_das_conf where
  port : Nat
  shared_secret : Option (List Nat)
  client_addr : Option Nat
deriving DecidableEq, Repr

/-- Outcomes of the OS and event-loop calls made during construction:
`os_zalloc` success, `os_malloc` success for the secret copy, the descriptor
returned by a successful `socket`+`bind` (`none` when `radius_das_open_socket`
fails and returns -1), and `eloop_register_read_sock` success. -/
structure InitEnv where
  zallocOk : Bool
  secretAllocOk : Bool
  openResult : Option Nat
  registerOk : Bool
deriving DecidableEq, Repr

/-- Observable lifecycle events of init/deinit: event-loop deregistration,
`close` of a descriptor, and the two `os_free` calls of `radius_das_deinit`. -/
inductive LifeEvent where
  | unregisterSock (fd : Int) : LifeEvent
  | closeSock (fd : Int) : LifeEvent
  | freeSecret : LifeEvent
  | freeDas : LifeEvent
deriving DecidableEq, Repr

/-- `radius_das_open_socket` (lines 143-164): returns the bound descriptor, or
-1 when the socket cannot be created or bound. -/
def radius_das_open_socket (env : InitEnv) : Int :=
  match env.openResult with
  | none => -1
  | some fd => (fd : Int)

/-- `radius_das_deinit` (lines 210-222): no-op on NULL; otherwise deregisters
and closes the socket whenever `sock >= 0`, then frees the secret and the
endpoint. -/
def radius_das_deinit (das : Option RadiusDasData) : List LifeEvent :=
  match das with
  | none => []
  | some d =>
      (if 0 ≤ d.sock then [LifeEvent.unregisterSock d.sock, LifeEvent.closeSock d.sock]
       else []) ++ [LifeEvent.freeSecret, LifeEvent.freeDas]

/-- `radius_das_init` (lines 167-207): rejects a zero port, a NULL secret or a
NULL client address; allocates the zero-initialized endpoint (`sock = 0`),
copies the client address, copies the secret, opens and registers the socket,
and on each failure after allocation tears the endpoint down via
`radius_das_deinit`.  Returns the endpoint (or `none`) and the lifecycle
events of the failure path. -/
def radius_das_init (env : InitEnv) (conf : radius_das_conf) :
    Option RadiusDasData × List LifeEvent :=
  if conf.port = 0 ∨ conf.shared_secret = none ∨ conf.client_addr = none then
    (none, [])
  else if env.zallocOk = false then
    (none, [])
  else
    let das0 : RadiusDasData :=
      { sock := 0, shared_secret := [], client_addr := conf.client_addr.getD 0 }
    if env.secretAllocOk = false then
      (none, radius_das_deinit (some das0))
    else
      let das1 : RadiusDasData :=
        { das0 with shared_secret := conf.shared_secret.getD [] }
      let s : Int := radius_das_open_socket env
      if s < 0 then
        (none, radius_das_deinit (some { das1 with sock := s }))
      else
        let das2 : RadiusDasData := { das1 with sock := s }
        if env.registerOk = false then
          (none, radius_das_deinit (some das2))
        else
          (some das2, [])

/-- Rewrites the destination port of every `sentTo` event; used to state that
the receive cycle depends on the source port only through the reply's
destination. -/
def portTo (q : Nat) (e : DasEvent) : DasEvent :=
  match e with
  | DasEvent.sentTo a _ m => DasEvent.sentTo a q m
  | e => e

/-- Concrete codec environment in which no datagram parses. -/
def envNoParse : Env :=
  { radius_msg_parse := fun _ => none,
    radius_msg_verify_das_req := fun _ _ => 1,
    newFails := false,
    addAttrFails := false,
    finishFails := false,
    computeMac := fun _ _ _ => 0 }

/-- Concrete Disconnect-Request with identifier 7. -/
def reqDisc7 : RadiusMsg :=
  { code := RADIUS_CODE_DISCONNECT_REQUEST, identifier := 7, attrs := [] }

/-- Concrete message with an unrecognized code. -/
def reqOther : RadiusMsg := { code := 1, identifier := 9, attrs := [] }

/-- Concrete datagram from source address 5, port 3799. -/
def pkt5 : Datagram := { srcAddr := 5, srcPort := 3799, data := [0] }

/-- Concrete endpoint trusting source address 5. -/
def das5 : RadiusDasData :=
  { sock := 4, shared_secret := [115, 51], client_addr := 5 }

/-- Environment where every datagram parses to `reqDisc7` and authenticates. -/
def envAuthDisc : Env :=
  { envNoParse with
    radius_msg_parse := fun _ => some reqDisc7,
    radius_msg_verify_das_req := fun _ _ => 0 }

/-- Environment where every datagram parses to `reqDisc7` but fails
authenticator verification. -/
def envAuthBad : Env :=
  { envNoParse with radius_msg_parse := fun _ => some reqDisc7 }

/-- Environment where every datagram parses to the unrecognized-code message
and authenticates. -/
def envAuthOther : Env :=
  { envAuthDisc with radius_msg_parse := fun _ => some reqOther }

/-- Environment like `envAuthDisc` but where signing the response fails. -/
def envSignFail : Env := { envAuthDisc with finishFails := true }

/-- Environment like `envAuthDisc` but where adding the Error-Cause attribute
fails. -/
def envAddFail : Env := { envAuthDisc with addAttrFails := true }

/-- Configuration with a present but empty shared secret. -/
def confEmptySecret : radius_das_conf :=
  { port := 3799, shared_secret := some [], client_addr := some 5 }

/-- Configuration with a zero port. -/
def confZeroPort : radius_das_conf :=
  { port := 0, shared_secret := some [115], client_addr := some 5 }

/-- Valid configuration. -/
def confOk : radius_das_conf :=
  { port := 3799, shared_secret := some [115], client_addr := some 5 }

/-- Lifecycle environment where every OS and event-loop call succeeds,
yielding descriptor 6. -/
def envInitOk : InitEnv :=
  { zallocOk := true, secretAllocOk := true, openResult := some 6,
    registerOk := true }

/-- Lifecycle environment where the secret copy allocation fails. -/
def envSecretAllocFail : InitEnv := { envInitOk with secretAllocOk := false }

/-- The receive handler never modifies the endpoint state: `radius_das_receive`
only reads the `radius_das_data` fields. -/
theorem radius_das_receive_fst (das : RadiusDasData) (env : Env)
    (r : Option Datagram) : (radius_das_receive das env r).1 = das := by
  rcases r with _ | pkt
  · rfl
  · unfold radius_das_receive
    by_cases h1 : das.client_addr = pkt.srcAddr
    · simp only [h1, ne_eq, not_true_eq_false, if_false]
      cases hp : env.radius_msg_parse pkt.data <;> simp only []
      split <;> rfl
    · simp [h1]

/-- C1: a datagram whose source IPv4 address differs from the configured
trusted peer address is dropped immediately: the cycle's whole trace is the
drop event (no parse, no verification, no dispatch) and nothing is sent,
whatever the payload and codec behavior. -/
theorem C1_off_origin_silent_drop (das : RadiusDasData) (env : Env)
    (pkt : Datagram) (h : das.client_addr ≠ pkt.srcAddr) :
    radius_das_receive das env (some pkt) =
      (das, [DasEvent.dropUnknownClient]) ∧
    dasSends (radius_das_receive das env (some pkt)).2 = [] := by
  constructor
  · simp [radius_das_receive, h]
  · simp [radius_das_receive, h, dasSends]

/-- C1 witness: source address 9 against trusted peer 5. -/
theorem C1_off_origin_silent_drop_witness :
    radius_das_receive das5 envAuthDisc
        (some { srcAddr := 9, srcPort := 3799, data := [0] }) =
      (das5, [DasEvent.dropUnknownClient]) ∧
    dasSends (radius_das_receive das5 envAuthDisc
        (some { srcAddr := 9, srcPort := 3799, data := [0] })).2 = [] :=
  C1_off_origin_silent_drop das5 envAuthDisc
    { srcAddr := 9, srcPort := 3799, data := [0] } (by decide)

/-- C2: a datagram from the trusted peer that parses but fails
Message-Authenticator verification produces no send: the trace is exactly
parse, verify, authentication failure, cleanup (the decoded message is
freed), with no `sentTo` event. -/
theorem C2_auth_fail_silent (das : RadiusDasData) (env : Env) (pkt : Datagram)
    (msg : RadiusMsg) (hsrc : das.client_addr = pkt.srcAddr)
    (hparse : env.radius_msg_parse pkt.data = some msg)
    (hver : env.radius_msg_verify_das_req msg das.shared_secret ≠ 0) :
    radius_das_receive das env (some pkt) =
      (das, [DasEvent.parseCalled, DasEvent.verifyCalled,
             DasEvent.authFailed, DasEvent.cleanup]) ∧
    dasSends (radius_das_receive das env (some pkt)).2 = [] := by
  constructor
  · simp [radius_das_receive, hsrc, hparse, hver]
  · simp [radius_das_receive, hsrc, hparse, hver, dasSends]

/-- C2 witness: trusted source, parse succeeds, verification returns 1. -/
theorem C2_auth_fail_silent_witness :
    radius_das_receive das5 envAuthBad (some pkt5) =
      (das5, [DasEvent.parseCalled, DasEvent.verifyCalled,
              DasEvent.authFailed, DasEvent.cleanup]) ∧
    dasSends (radius_das_receive das5 envAuthBad (some pkt5)).2 = [] :=
  C2_auth_fail_silent das5 envAuthBad pkt5 reqDisc7 (by decide) rfl
    (by decide)

/-- The event list of the dispatch switch is either a single reply-constructor
call or the single unexpected-code log; in particular it contains no send. -/
theorem dispatch_events_cases (env : Env) (msg : RadiusMsg) :
    (∃ c i, (radius_das_dispatch env msg).2 = [DasEvent.newCalled c i]) ∨
    (radius_das_dispatch env msg).2 = [DasEvent.unexpectedCode msg.code] := by
  unfold radius_das_dispatch
  split
  · cases hn : radius_msg_new env RADIUS_CODE_DISCONNECT_NAK msg.identifier <;>
      exact Or.inl ⟨_, _, rfl⟩
  · split
    · cases hn : radius_msg_new env RADIUS_CODE_COA_NAK msg.identifier <;>
        exact Or.inl ⟨_, _, rfl⟩
    · exact Or.inr rfl

/-- C3: an authenticated Disconnect-Request or CoA-Request from the trusted
peer (with the reply allocation and the Error-Cause addition succeeding)
yields exactly one reply, sent to the request's source, whose code is the
matching NAK code, whose identifier equals the request's identifier, and
which carries an Error-Cause attribute with value 405. -/
theorem C3_nak_response (das : RadiusDasData) (env : Env) (pkt : Datagram)
    (msg : RadiusMsg) (hsrc : das.client_addr = pkt.srcAddr)
    (hparse : env.radius_msg_parse pkt.data = some msg)
    (hver : env.radius_msg_verify_das_req msg das.shared_secret = 0)
    (hnew : env.newFails = false) (hadd : env.addAttrFails = false)
    (hcode : msg.code = RADIUS_CODE_DISCONNECT_REQUEST ∨
             msg.code = RADIUS_CODE_COA_REQUEST) :
    ∃ r, dasSends (radius_das_receive das env (some pkt)).2 =
        [(pkt.srcAddr, pkt.srcPort, r)] ∧
      r.code = (if msg.code = RADIUS_CODE_DISCONNECT_REQUEST
                then RADIUS_CODE_DISCONNECT_NAK else RADIUS_CODE_COA_NAK) ∧
      r.identifier = msg.identifier ∧
      RadiusAttr.mk RADIUS_ATTR_ERROR_CAUSE 405 ∈ r.attrs := by
  rcases hcode with h | h <;>
    cases hf : env.finishFails <;>
    · simp [radius_das_receive, radius_das_dispatch, radius_msg_new,
            radius_msg_add_attr_int32, radius_msg_finish_das_resp,
            hsrc, hparse, hver, hnew, hadd, hf, h, dasSends,
            RADIUS_CODE_DISCONNECT_REQUEST, RADIUS_CODE_COA_REQUEST,
            RADIUS_CODE_DISCONNECT_NAK, RADIUS_CODE_COA_NAK]

/-- C3 witness: authenticated Disconnect-Request with identifier 7 from the
trusted peer yields one Disconnect-NAK to that peer with Error-Cause 405. -/
theorem C3_nak_response_witness :
    ∃ r, dasSends (radius_das_receive das5 envAuthDisc (some pkt5)).2 =
        [(pkt5.srcAddr, pkt5.srcPort, r)] ∧
      r.code = (if reqDisc7.code = RADIUS_CODE_DISCONNECT_REQUEST
                then RADIUS_CODE_DISCONNECT_NAK else RADIUS_CODE_COA_NAK) ∧
      r.identifier = reqDisc7.identifier ∧
      RadiusAttr.mk RADIUS_ATTR_ERROR_CAUSE 405 ∈ r.attrs :=
  C3_nak_response das5 envAuthDisc pkt5 reqDisc7 (by decide) rfl rfl rfl rfl
    (Or.inl rfl)

/-- C5: when the NAK reply was constructed but signing it fails, the reply is
still sent, exactly once, to the request's source, in exactly the state it
was constructed in before signing. -/
theorem C5_sign_fail_still_sends (das : RadiusDasData) (env : Env)
    (pkt : Datagram) (msg : RadiusMsg) (hsrc : das.client_addr = pkt.srcAddr)
    (hparse : env.radius_msg_parse pkt.data = some msg)
    (hver : env.radius_msg_verify_das_req msg das.shared_secret = 0)
    (hnew : env.newFails = false) (hfin : env.finishFails = true)
    (hcode : msg.code = RADIUS_CODE_DISCONNECT_REQUEST ∨
             msg.code = RADIUS_CODE_COA_REQUEST) :
    dasSends (radius_das_receive das env (some pkt)).2 =
      [(pkt.srcAddr, pkt.srcPort,
        (radius_msg_add_attr_int32 env
          { code := if msg.code = RADIUS_CODE_DISCONNECT_REQUEST
                    then RADIUS_CODE_DISCONNECT_NAK else RADIUS_CODE_COA_NAK,
            identifier := msg.identifier, attrs := [] }
          RADIUS_ATTR_ERROR_CAUSE 405).1)] := by
  rcases hcode with h | h <;>
    cases ha : env.addAttrFails <;>
      simp [radius_das_receive, radius_das_dispatch, radius_msg_new,
            radius_msg_add_attr_int32, radius_msg_finish_das_resp,
            hsrc, hparse, hver, hnew, hfin, ha, h, dasSends,
            RADIUS_CODE_DISCONNECT_REQUEST, RADIUS_CODE_COA_REQUEST,
            RADIUS_CODE_DISCONNECT_NAK, RADIUS_CODE_COA_NAK]

/-- C5 witness: signing failure on an authenticated Disconnect-Request still
produces one send of the unsigned reply. -/
theorem C5_sign_fail_still_sends_witness :
    dasSends (radius_das_receive das5 envSignFail (some pkt5)).2 =
      [(pkt5.srcAddr, pkt5.srcPort,
        (radius_msg_add_attr_int32 envSignFail
          { code := if reqDisc7.code = RADIUS_CODE_DISCONNECT_REQUEST
                    then RADIUS_CODE_DISCONNECT_NAK else RADIUS_CODE_COA_NAK,
            identifier := reqDisc7.identifier, attrs := [] }
          RADIUS_ATTR_ERROR_CAUSE 405).1)] :=
  C5_sign_fail_still_sends das5 envSignFail pkt5 reqDisc7 (by decide) rfl rfl
    rfl rfl (Or.inl rfl)

/-- C6: an authenticated request from the trusted peer whose code is neither
Disconnect-Request nor CoA-Request produces no reply: the trace is exactly
parse, verify, the unexpected-code log and cleanup, with no construction and
no send. -/
theorem C6_unknown_code_silent (das : RadiusDasData) (env : Env)
    (pkt : Datagram) (msg : RadiusMsg) (hsrc : das.client_addr = pkt.srcAddr)
    (hparse : env.radius_msg_parse pkt.data = some msg)
    (hver : env.radius_msg_verify_das_req msg das.shared_secret = 0)
    (h1 : msg.code ≠ RADIUS_CODE_DISCONNECT_REQUEST)
    (h2 : msg.code ≠ RADIUS_CODE_COA_REQUEST) :
    radius_das_receive das env (some pkt) =
      (das, [DasEvent.parseCalled, DasEvent.verifyCalled,
             DasEvent.unexpectedCode msg.code, DasEvent.cleanup]) ∧
    dasSends (radius_das_receive das env (some pkt)).2 = [] := by
  constructor <;>
    simp [radius_das_receive, radius_das_dispatch, hsrc, hparse, hver, h1, h2,
          dasSends]

/-- C6 witness: authenticated request with code 1 from the trusted peer. -/
theorem C6_unknown_code_silent_witness :
    radius_das_receive das5 envAuthOther (some pkt5) =
      (das5, [DasEvent.parseCalled, DasEvent.verifyCalled,
              DasEvent.unexpectedCode reqOther.code, DasEvent.cleanup]) ∧
    dasSends (radius_das_receive das5 envAuthOther (some pkt5)).2 = [] :=
  C6_unknown_code_silent das5 envAuthOther pkt5 reqOther (by decide) rfl rfl
    (by decide) (by decide)

/-- C7: every send of a cycle goes to the exact source address and port the
datagram arrived from, and the cycle depends on the source port only through
that reply destination — in particular the trust check reads only the source
IPv4 address. -/
theorem C7_reply_to_exact_source_port_ignored (das : RadiusDasData)
    (env : Env) (a p q : Nat) (d : List Nat) :
    (∀ s ∈ dasSends (radius_das_receive das env
        (some { srcAddr := a, srcPort := p, data := d })).2,
      s.1 = a ∧ s.2.1 = p) ∧
    (radius_das_receive das env
        (some { srcAddr := a, srcPort := q, data := d })).2 =
      ((radius_das_receive das env
        (some { srcAddr := a, srcPort := p, data := d })).2).map (portTo q) := by
  by_cases h1 : das.client_addr = a
  · cases hp : env.radius_msg_parse d
    · constructor <;> simp [radius_das_receive, h1, hp, dasSends, portTo]
    · rename_i msg
      by_cases hv : env.radius_msg_verify_das_req msg das.shared_secret = 0
      · rcases dispatch_events_cases env msg with ⟨c, i, he⟩ | he <;>
          cases hd : (radius_das_dispatch env msg).1 <;>
            constructor <;>
              simp [radius_das_receive, h1, hp, hv, hd, he, dasSends, portTo]
      · constructor <;> simp [radius_das_receive, h1, hp, hv, dasSends, portTo]
  · constructor <;> simp [radius_das_receive, h1, dasSends, portTo]

/-- C8: one receive cycle leaves the endpoint state unchanged, so running the
handler a second time on the same datagram and codec outcomes reproduces the
identical cycle — the handler is deterministic and keeps no cross-packet
state. -/
theorem C8_deterministic_stateless (das : RadiusDasData) (env : Env)
    (r : Option Datagram) :
    (radius_das_receive das env r).1 = das ∧
    radius_das_receive (radius_das_receive das env r).1 env r =
      radius_das_receive das env r := by
  refine ⟨radius_das_receive_fst das env r, ?_⟩
  rw [radius_das_receive_fst]

/-- C4 counterexample: a present but empty shared secret passes the NULL-only
check of `radius_das_init`, and with the OS calls succeeding an endpoint is
returned — refuting the claim that an empty secret yields no endpoint. -/
theorem C4_counterexample_empty_secret :
    confEmptySecret.shared_secret = some [] ∧
    (radius_das_init envInitOk confEmptySecret).1 =
      some { sock := 6, shared_secret := [], client_addr := 5 } := by decide

/-- C4 (amended): `radius_das_init` returns no endpoint whenever the port is
zero, the shared secret pointer is absent, or the client address is absent;
an empty-but-present secret is not rejected. -/
theorem C4_init_rejects_missing_config (env : InitEnv)
    (conf : radius_das_conf)
    (h : conf.port = 0 ∨ conf.shared_secret = none ∨
         conf.client_addr = none) :
    (radius_das_init env conf).1 = none := by
  unfold radius_das_init
  rw [if_pos h]

/-- C4 witness: a zero-port configuration is rejected. -/
theorem C4_init_rejects_missing_config_witness :
    (radius_das_init envInitOk confZeroPort).1 = none :=
  C4_init_rejects_missing_config envInitOk confZeroPort (Or.inl rfl)

/-- C9: when construction fails at the secret copy (after the zero-initialized
endpoint was allocated, before any socket was opened), the failure path calls
`radius_das_deinit` on an endpoint whose `sock` is 0; the `sock >= 0` test
passes and descriptor 0 — never opened by the endpoint — is deregistered and
closed. -/
theorem C9_early_fail_closes_descriptor_zero (env : InitEnv)
    (conf : radius_das_conf) (hport : conf.port ≠ 0)
    (hsec : conf.shared_secret ≠ none) (haddr : conf.client_addr ≠ none)
    (hz : env.zallocOk = true) (hm : env.secretAllocOk = false) :
    radius_das_init env conf =
      (none, [LifeEvent.unregisterSock 0, LifeEvent.closeSock 0,
              LifeEvent.freeSecret, LifeEvent.freeDas]) := by
  simp [radius_das_init, radius_das_deinit, hport, hsec, haddr, hz, hm]

/-- C9 witness: valid configuration, secret allocation failure. -/
theorem C9_early_fail_closes_descriptor_zero_witness :
    radius_das_init envSecretAllocFail confOk =
      (none, [LifeEvent.unregisterSock 0, LifeEvent.closeSock 0,
              LifeEvent.freeSecret, LifeEvent.freeDas]) :=
  C9_early_fail_closes_descriptor_zero envSecretAllocFail confOk (by decide)
    (by decide) (by decide) rfl rfl

/-- C10: when adding the Error-Cause attribute fails, the failure is ignored:
the reply is still signed and sent once to the request's source, carrying a
Message-Authenticator but no Error-Cause attribute. -/
theorem C10_missing_error_cause_still_sent (das : RadiusDasData) (env : Env)
    (pkt : Datagram) (msg : RadiusMsg) (hsrc : das.client_addr = pkt.srcAddr)
    (hparse : env.radius_msg_parse pkt.data = some msg)
    (hver : env.radius_msg_verify_das_req msg das.shared_secret = 0)
    (hnew : env.newFails = false) (hadd : env.addAttrFails = true)
    (hfin : env.finishFails = false)
    (hcode : msg.code = RADIUS_CODE_DISCONNECT_REQUEST ∨
             msg.code = RADIUS_CODE_COA_REQUEST) :
    ∃ r, dasSends (radius_das_receive das env (some pkt)).2 =
        [(pkt.srcAddr, pkt.srcPort, r)] ∧
      RadiusAttr.mk RADIUS_ATTR_ERROR_CAUSE 405 ∉ r.attrs ∧
      (∃ m, RadiusAttr.mk RADIUS_ATTR_MESSAGE_AUTHENTICATOR m ∈ r.attrs) ∧
      r.code = (if msg.code = RADIUS_CODE_DISCONNECT_REQUEST
                then RADIUS_CODE_DISCONNECT_NAK else RADIUS_CODE_COA_NAK) ∧
      r.identifier = msg.identifier := by
  rcases hcode with h | h <;>
    simp [radius_das_receive, radius_das_dispatch, radius_msg_new,
          radius_msg_add_attr_int32, radius_msg_finish_das_resp,
          hsrc, hparse, hver, hnew, hadd, hfin, h, dasSends,
          RADIUS_CODE_DISCONNECT_REQUEST, RADIUS_CODE_COA_REQUEST,
          RADIUS_CODE_DISCONNECT_NAK, RADIUS_CODE_COA_NAK,
          RADIUS_ATTR_ERROR_CAUSE, RADIUS_ATTR_MESSAGE_AUTHENTICATOR]

/-- C10 witness: Error-Cause addition failure on an authenticated
Disconnect-Request still yields one signed reply without Error-Cause. -/
theorem C10_missing_error_cause_still_sent_witness :
    ∃ r, dasSends (radius_das_receive das5 envAddFail (some pkt5)).2 =
        [(pkt5.srcAddr, pkt5.srcPort, r)] ∧
      RadiusAttr.mk RADIUS_ATTR_ERROR_CAUSE 405 ∉ r.attrs ∧
      (∃ m, RadiusAttr.mk RADIUS_ATTR_MESSAGE_AUTHENTICATOR m ∈ r.attrs) ∧
      r.code = (if reqDisc7.code = RADIUS_CODE_DISCONNECT_REQUEST
                then RADIUS_CODE_DISCONNECT_NAK else RADIUS_CODE_COA_NAK) ∧
      r.identifier = reqDisc7.identifier :=
  C10_missing_error_cause_still_sent das5 envAddFail pkt5 reqDisc7 (by decide)
    rfl rfl rfl rfl rfl (Or.inl rfl)

end RadiusDas
